import Mathlib

/-!
Verification development for the Quotex signal bot (`src/main.py`).

The Python source is shallowly embedded below.  Prices and payouts are
modelled as rationals (`ℚ`), Python machine integers as `Int`/`Nat`,
Python `None`-returning fallible functions as `Option`, raised exceptions
as `Except` values.  External collaborators (the `pyquotex` connector,
`process_candles`) are parameters of the embedded functions: a candle
fetch is an `Except String (List Candle)` input and the per-candidate
analysis of the selection loop is a function argument.
-/

/-! ## Python string primitives (for the asset resolver, `main.py` 49-62) -/

/-- Does `pat` occur at the head of `s`?  (Helper for Python `str.replace`
and the `in` operator.) -/
def leadsWith : List Char → List Char → Bool
  | [], _ => true
  | _ :: _, [] => false
  | p :: ps, c :: cs => p == c && leadsWith ps cs

/-- Fuel-driven worker for `replaceAll`; each step consumes at least one
character of `s`, so fuel `s.length` is always sufficient. -/
def replaceAllGo : Nat → List Char → List Char → List Char → List Char
  | 0, s, _, _ => s
  | fuel + 1, s, pat, rep =>
    match s with
    | [] => []
    | c :: cs =>
      if 0 < pat.length ∧ leadsWith pat (c :: cs) = true then
        rep ++ replaceAllGo fuel ((c :: cs).drop pat.length) pat rep
      else
        c :: replaceAllGo fuel cs pat rep

/-- Python `s.replace(pat, rep)`: replace every non-overlapping occurrence
of `pat` left to right.  (Python's special behaviour for an empty pattern
is irrelevant here: all patterns used by the source are nonempty.) -/
def replaceAll (s pat rep : List Char) : List Char :=
  replaceAllGo s.length s pat rep

/-- Python `needle in hay` (substring containment). -/
def hasSub (needle hay : List Char) : Bool :=
  match hay with
  | [] => needle.isEmpty
  | _ :: t => leadsWith needle hay || hasSub needle t

/-- Whitespace for Python `str.strip()`. -/
def isSpaceChar (c : Char) : Bool :=
  c == ' ' || c == '\t' || c == '\n' || c == '\r'

/-- Python `s.strip()`: drop whitespace from both ends. -/
def stripEnds (s : List Char) : List Char :=
  ((s.dropWhile isSpaceChar).reverse.dropWhile isSpaceChar).reverse

def pyReplace (s pat rep : String) : String :=
  ⟨replaceAll s.data pat.data rep.data⟩

def pyStrip (s : String) : String :=
  ⟨stripEnds s.data⟩

/-- Python `s.upper()` (all strings involved are ASCII). -/
def pyUpper (s : String) : String :=
  ⟨s.data.map Char.toUpper⟩

/-- Python `needle in hay` on strings. -/
def pyIn (needle hay : String) : Bool :=
  hasSub needle.data hay.data

/-! ## Asset resolver (`get_high_payout_pairs`, `main.py` 23-66) -/

/-- The `profit` field of a payout entry: either a dict whose `'1M'` key
may be absent (`.get('1M', 0)`), or a non-dict value (payout treated
as 0).  `main.py` 40-41. -/
inductive ProfitData where
  | dict (oneM : Option ℚ)
  | other
deriving DecidableEq

/-- One value of the `payment_data` mapping: a dict with an `'open'` flag
(`.get('open', False)`) and a `profit` field, or a malformed non-dict
entry which the `isinstance` check at `main.py` 37 skips. -/
inductive AssetEntry where
  | data (isOpen : Bool) (profit : ProfitData)
  | malformed
deriving DecidableEq

structure NamePayout where
  name : String
  payout : ℚ
deriving DecidableEq

/-- An instrument candidate produced by the resolver (`main.py` 57-61). -/
structure Candidate where
  asset_code : String
  payout : ℚ
  display_name : String
deriving DecidableEq

/-- First filtering pass of `get_high_payout_pairs` (`main.py` 34-46):
keep entries that are dicts, open, and whose 1-minute payout is ≥ 90. -/
def eligibleNames (md : List (String × AssetEntry)) : List NamePayout :=
  md.filterMap fun e =>
    match e.2 with
    | AssetEntry.malformed => none
    | AssetEntry.data isOpen profit =>
      if isOpen then
        let payout : ℚ := match profit with
          | ProfitData.dict o => o.getD 0
          | ProfitData.other => 0
        if payout ≥ 90 then some ⟨e.1, payout⟩ else none
      else none

/-- Display-name normalization (`main.py` 51): strip `(OTC)`/`(otc)`,
strip outer whitespace, remove `/` and spaces, uppercase. -/
def cleanDisplay (name : String) : String :=
  pyUpper (pyReplace (pyReplace (pyStrip (pyReplace (pyReplace name "(OTC)" "") "(otc)" "")) "/" "") " " "")

/-- Catalog-code normalization (`main.py` 54): strip `_otc`/`_OTC`,
uppercase. -/
def cleanCode (code : String) : String :=
  pyUpper (pyReplace (pyReplace code "_otc" "") "_OTC" "")

/-- Second pass of `get_high_payout_pairs` (`main.py` 49-62): for each
surviving name, scan the first 100 catalog codes for the first code whose
normalized form contains, or is contained in, the normalized display
name; no match drops the candidate. -/
def pairsWithCodes (names : List NamePayout) (catalog : List String) : List Candidate :=
  names.filterMap fun p =>
    let display_clean := cleanDisplay p.name
    match (catalog.take 100).find? (fun code =>
        let asset_code_clean := cleanCode code
        pyIn display_clean asset_code_clean || pyIn asset_code_clean display_clean) with
    | some code => some ⟨code, p.payout, p.name⟩
    | none => none

/-- Stable insertion used to model `list.sort(key=payout, reverse=True)`
(`main.py` 65): Python's sort is stable, so an element stays in front of
later elements of equal payout. -/
def insertDesc (x : Candidate) : List Candidate → List Candidate
  | [] => [x]
  | y :: ys => if x.payout ≥ y.payout then x :: y :: ys else y :: insertDesc x ys

/-- Stable descending sort by payout (`main.py` 65). -/
def sortByPayoutDesc : List Candidate → List Candidate
  | [] => []
  | x :: xs => insertDesc x (sortByPayoutDesc xs)

/-- `get_high_payout_pairs` (`main.py` 23-66) as a function of the two
connector responses `payment_data` (assoc list, Python dicts preserve
insertion order) and the keys of `all_assets`.  The `if not bot_client`
guard at line 25 is handled by the caller `get_signal`, which only calls
this with a live session.  Empty / falsy connector responses return `[]`
(line 31-32); otherwise filter, resolve codes, sort by payout descending
and truncate to the top 10. -/
def get_high_payout_pairs (md : List (String × AssetEntry)) (catalog : List String) : List Candidate :=
  if md.isEmpty || catalog.isEmpty then []
  else (sortByPayoutDesc (pairsWithCodes (eligibleNames md) catalog)).take 10

/-! ## Indicator library (`analyze_pair`, `main.py` 79-107) -/

/-- A processed candle as used by `analyze_pair` after the optional
`process_candles` normalization (`main.py` 76-77): the fields the
analysis reads.  `high`/`low` model the `max`/`min` (with `high`/`low`
fallback) lookups at lines 80-81. -/
structure Candle where
  high : ℚ
  low : ℚ
  close : ℚ
deriving DecidableEq

/-- Python `xs[-n:]`: the last `n` elements (all of them when the list is
shorter). -/
def lastN (n : Nat) (xs : List ℚ) : List ℚ :=
  xs.drop (xs.length - n)

/-- Python `max(xs)` on a nonempty list (0 on the empty list, which the
source never reaches). -/
def listMax : List ℚ → ℚ
  | [] => 0
  | x :: xs => xs.foldl max x

/-- Python `min(xs)` on a nonempty list. -/
def listMin : List ℚ → ℚ
  | [] => 0
  | x :: xs => xs.foldl min x

/-- The 14 close-to-close deltas of the RSI loop (`main.py` 95-96):
`closes[i+1] - closes[i]` for `i in range(-15, -1)`. -/
def rsiDeltas (closes : List ℚ) : List ℚ :=
  let t := lastN 15 closes
  List.zipWith (fun a b => a - b) (t.drop 1) t

/-- The `gains` list (`main.py` 97): deltas with `diff >= 0`. -/
def rsiGains (closes : List ℚ) : List ℚ :=
  (rsiDeltas closes).filter (fun d => d ≥ 0)

/-- The `losses` list (`main.py` 98): `abs(diff)` for each `diff < 0`. -/
def rsiLosses (closes : List ℚ) : List ℚ :=
  ((rsiDeltas closes).filter (fun d => d < 0)).map (fun d => |d|)

/-- `avg_gain` (`main.py` 100): `sum(gains)/14` when nonempty, else the
epsilon `0.0001`. -/
def avg_gain (closes : List ℚ) : ℚ :=
  if rsiGains closes ≠ [] then (rsiGains closes).sum / 14 else 0.0001

/-- `avg_loss` (`main.py` 101): `sum(losses)/14` when nonempty, else the
epsilon `0.0001`. -/
def avg_loss (closes : List ℚ) : ℚ :=
  if rsiLosses closes ≠ [] then (rsiLosses closes).sum / 14 else 0.0001

/-- `rs = avg_gain / avg_loss` (`main.py` 102). -/
def rsOf (closes : List ℚ) : ℚ :=
  avg_gain closes / avg_loss closes

/-- `rsi = 100 - (100 / (1 + rs))` (`main.py` 103). -/
def rsiOf (closes : List ℚ) : ℚ :=
  100 - 100 / (1 + rsOf closes)

/-! ## Scoring engine (`analyze_pair`, `main.py` 109-152) -/

/-- One line of the human-readable `logic` trail.  The two RSI lines
interpolate the RSI value (`f"... ({rsi:.1f}) ..."` at `main.py`
123/126); the carried rational models that interpolated value, the
surrounding fixed text being abstracted into the constructor. -/
inductive LogicEntry where
  | trendUp
  | trendDown
  | rsiOversold (rsi : ℚ)
  | rsiOverbought (rsi : ℚ)
  | testingBaseline
deriving DecidableEq

/-- The indicator snapshot the scoring engine reads: the locals of
`analyze_pair` at line 109.  `volatility_ok` is the (negated) volatility
gate of lines 106-107. -/
structure Snapshot where
  current_price : ℚ
  support : ℚ
  resistance : ℚ
  ma20 : ℚ
  ma5 : ℚ
  rsi : ℚ
  volatility_ok : Bool
deriving DecidableEq

/-- Trend term (`main.py` 113-118): +40 when `ma5 > ma20`, else −40. -/
def trendScore (ma5 ma20 : ℚ) : Int :=
  if ma5 > ma20 then 40 else -40

/-- Momentum term (`main.py` 121-126): +40 when `rsi < 40`, −40 when
`rsi > 60`, else 0. -/
def momentumScore (rsi : ℚ) : Int :=
  if rsi < 40 then 40 else if rsi > 60 then -40 else 0

/-- Mean-reversion adjustment (`main.py` 129-130): when the price is
within 0.2% of the 20-period mean, `score += 20 if score > 0 else -20`;
otherwise 0. -/
def baselineAdj (score : Int) (current_price ma20 : ℚ) : Int :=
  if |current_price - ma20| / ma20 < 0.002 then
    (if score > 0 then 20 else -20)
  else 0

/-- The final score of `analyze_pair` (`main.py` 109-130). -/
def scoreOf (ma5 ma20 rsi current_price : ℚ) : Int :=
  let s := trendScore ma5 ma20 + momentumScore rsi
  s + baselineAdj s current_price ma20

/-- The `logic` trail accumulated alongside the score (`main.py`
110-131), in evaluation order. -/
def logicOf (ma5 ma20 rsi current_price : ℚ) : List LogicEntry :=
  (if ma5 > ma20 then [LogicEntry.trendUp] else [LogicEntry.trendDown]) ++
  (if rsi < 40 then [LogicEntry.rsiOversold rsi]
   else if rsi > 60 then [LogicEntry.rsiOverbought rsi] else []) ++
  (if |current_price - ma20| / ma20 < 0.002 then [LogicEntry.testingBaseline] else [])

/-- Decision step (`main.py` 134-141): direction string and capped
confidence for a strong enough score, `none` otherwise.  The source
renders the confidence as `f"{confidence}%"`; the integer it wraps is
modelled directly. -/
def decisionOf (score : Int) : Option (String × Int) :=
  if score ≥ 60 then some ("CALL 🟢", min score 98)
  else if score ≤ -60 then some ("PUT 🔴", min |score| 98)
  else none

/-- Python `round(x, 5)` (`main.py` 148-150).  Mathlib's `round` rounds
half away from zero upward while Python rounds half to even; the two only
differ on exact ties, which no claim exercises. -/
def round5 (x : ℚ) : ℚ :=
  (round (x * 100000) : ℤ) / 100000

/-- The signal payload (`main.py` 143-152). -/
structure Signal where
  pair : String
  direction : String
  confidence : Int
  time_frame : String
  current_price : ℚ
  support : ℚ
  resistance : ℚ
  logic : List LogicEntry
deriving DecidableEq

/-- Scoring engine (`main.py` 106-152) as a function of the indicator
snapshot: volatility gate first (lines 106-107), then scoring and the
compile-signal step. -/
def signalFromSnapshot (s : Snapshot) (display_name : String) : Option Signal :=
  if s.volatility_ok = false then none
  else
    match decisionOf (scoreOf s.ma5 s.ma20 s.rsi s.current_price) with
    | none => none
    | some dc =>
      some ⟨display_name, dc.1, dc.2, "1 Minute",
            round5 s.current_price, round5 s.support, round5 s.resistance,
            logicOf s.ma5 s.ma20 s.rsi s.current_price⟩

/-- `analyze_pair` (`main.py` 68-156) as a function of the candle-fetch
outcome.  An exception anywhere in the body — modelled by the
`Except.error` fetch outcome, the only failure point of the embedded
fragment — is caught by the `try/except` at lines 70/154 and yields
`None`.  Too few candles (lines 73-74) also yields `None`.  The raw-shape
branch at lines 76-77 delegates to the external `process_candles`; the
embedding takes candles already in processed shape. -/
def analyze_pair (fetch : Except String (List Candle)) (display_name : String) : Option Signal :=
  match fetch with
  | Except.error _ => none
  | Except.ok candles =>
    if candles.length < 30 then none
    else
      let closes := candles.map Candle.close
      let highs := candles.map Candle.high
      let lows := candles.map Candle.low
      let current_price := closes.getLastD 0
      let resistance := listMax (lastN 20 highs)
      let support := listMin (lastN 20 lows)
      let ma20 := (lastN 20 closes).sum / 20
      let ma5 := (lastN 5 closes).sum / 5
      let volatility_ok := !(listMax (lastN 10 closes) - listMin (lastN 10 closes) < 0.00005 : Bool)
      signalFromSnapshot
        ⟨current_price, support, resistance, ma20, ma5, rsiOf closes, volatility_ok⟩
        display_name

/-! ## Boundary adapter (`login` and `get_signal`, `main.py` 158-211) -/

/-- The global `bot_client` once constructed (`main.py` 166):
`Quotex(email=..., password=..., lang="en")`, with the account mode set
only after a successful connect (line 170). -/
structure Client where
  email : String
  password : String
  lang : String
  accountMode : Option String
deriving DecidableEq

/-- An HTTP-style response body.  `status` is the literal `"status"`
string of the returned dict (`"success"`, `"waiting"` or `"error"`),
`message`/`data` the other keys, absent keys being `none`. -/
structure ApiResponse where
  status : String
  message : Option String
  data : Option Signal
deriving DecidableEq

/-- `str(e)` of a FastAPI/Starlette `HTTPException`, as produced when the
`except` at `main.py` 175 catches the `HTTPException` raised at 174:
`"{status_code}: {detail}"`. -/
def strOfHTTPException (code : Nat) (detail : String) : String :=
  toString code ++ ": " ++ detail

/-- `login` (`main.py` 158-176) as a function of the prior global
`bot_client` and the behaviours of the two external calls inside the
`try` block: `closeOutcome` is `some msg` when `bot_client.close()`
raises (consulted only when a prior client exists), and `connectOutcome`
is either a raised exception or the `(check, reason)` pair returned by
`bot_client.connect()`.  The result is the new `bot_client` together
with either a raised `HTTPException (code, detail)` (`Except.error`) or
the success body's message.  Note that the `HTTPException(401, ...)`
raised at line 174 is itself an `Exception`, so the `except` at line 175
catches it and re-raises it as a 500 whose detail is `str(e)`. -/
def login (old : Option Client) (email password : String)
    (closeOutcome : Option String)
    (connectOutcome : Except String (Bool × String)) :
    Option Client × Except (Nat × String) String :=
  match old, closeOutcome with
  | some _, some msg =>
    -- `await bot_client.close()` raised: caught at line 175, global unchanged.
    (old, Except.error (500, msg))
  | _, _ =>
    let fresh : Client := ⟨email, password, "en", none⟩
    match connectOutcome with
    | Except.error msg =>
      -- `connect()` raised after the global was reassigned at line 166.
      (some fresh, Except.error (500, msg))
    | Except.ok (check, reason) =>
      if check then
        (some { fresh with accountMode := some "PRACTICE" },
         Except.ok "Successfully connected to Quotex websocket.")
      else
        -- Line 173-174: global cleared, then the 401 is raised, caught
        -- at 175 and re-raised as a 500 wrapping `str(e)`.
        (none, Except.error (500, strOfHTTPException 401 ("Login failed: " ++ reason)))

/-- The candidate loop of `get_signal` (`main.py` 192-206).  `analyze`
is the per-candidate analysis (candle fetch + `analyze_pair`); `best`
and `highest` are the `best_signal` / `highest_confidence` accumulators.
Returns the final `best_signal` together with the list of candidates for
which `analyze` (hence a candle fetch) was invoked, in order.  The
`int(signal['confidence'].replace('%', ''))` round trip at line 196 is
the identity on the modelled integer confidence. -/
def selectLoop (analyze : Candidate → Option Signal) :
    List Candidate → Option Signal → Int → Option Signal × List Candidate
  | [], best, _ => (best, [])
  | p :: rest, best, highest =>
    match analyze p with
    | some sig =>
      let best' := if sig.confidence > highest then some sig else best
      let highest' := if sig.confidence > highest then sig.confidence else highest
      if highest' ≥ 90 then (best', [p])
      else
        let r := selectLoop analyze rest best' highest'
        (r.1, p :: r.2)
    | none =>
      let r := selectLoop analyze rest best highest
      (r.1, p :: r.2)

/-- `get_signal` (`main.py` 178-211) as a function of the session flag
(`bot_client` is set), the connector metadata feeding
`get_high_payout_pairs`, and the per-candidate analysis.  Returns the
HTTP outcome (raised `HTTPException` or response body) together with the
list of candidates for which a candle fetch was performed. -/
def get_signal (loggedIn : Bool) (md : List (String × AssetEntry))
    (catalog : List String) (analyze : Candidate → Option Signal) :
    Except (Nat × String) ApiResponse × List Candidate :=
  if loggedIn = false then
    (Except.error (401, "Bot is not logged in. Call /login first."), [])
  else
    let pairs := get_high_payout_pairs md catalog
    if pairs.isEmpty then
      (Except.ok ⟨"error", some "Could not find any high payout pairs currently open.", none⟩, [])
    else
      let r := selectLoop analyze pairs none 0
      match r.1 with
      | some sig => (Except.ok ⟨"success", none, some sig⟩, r.2)
      | none =>
        (Except.ok ⟨"waiting", some "No strong setups found right now. Try again in 1 minute.", none⟩, r.2)

/-! ## Claim theorems -/

/-- A per-candidate analysis that never yields a signal (used as the
concrete analysis function in closed instances). -/
def noAnalyze : Candidate → Option Signal := fun _ => none

theorem sortByPayoutDesc_nil : sortByPayoutDesc [] = [] := rfl

theorem pairsWithCodes_nil (catalog : List String) : pairsWithCodes [] catalog = [] := rfl

theorem get_high_payout_pairs_eq_nil (md : List (String × AssetEntry)) (catalog : List String)
    (h : eligibleNames md = [] ∨ pairsWithCodes (eligibleNames md) catalog = []) :
    get_high_payout_pairs md catalog = [] := by
  unfold get_high_payout_pairs
  by_cases he : md.isEmpty || catalog.isEmpty
  · simp [he]
  · rcases h with h | h
    · simp [he, h, pairsWithCodes_nil, sortByPayoutDesc_nil]
    · simp [he, h, sortByPayoutDesc_nil]

/-- C1 counterexample: with an active session and empty payout metadata
(hence no eligible instruments), `get_signal` returns a body whose
`status` is the string `"error"`, not `"waiting"`, so the claim's
description of the result as a 'waiting' result is false (no candle
fetch is performed, as the empty fetched list shows). -/
theorem c1_counterexample :
    get_signal true [] [] noAnalyze =
      (Except.ok ⟨"error", some "Could not find any high payout pairs currently open.", none⟩, []) ∧
    (ApiResponse.mk "error" (some "Could not find any high payout pairs currently open.") none).status ≠ "waiting" := by
  constructor
  · rfl
  · decide

/-- C1 (amended): if `get_signal` is called with an active session and
the payout metadata yields no eligible instruments (no entry that is
open with 1-minute payout ≥ 90, or no entry matching a catalog code),
the operation returns the structured response body with status
`"error"` and message `"Could not find any high payout pairs currently
open."` — a normal response body, not a raised `HTTPException` — and no
candle fetch is performed. -/
theorem c1_no_eligible_instruments (md : List (String × AssetEntry)) (catalog : List String)
    (analyze : Candidate → Option Signal)
    (h : eligibleNames md = [] ∨ pairsWithCodes (eligibleNames md) catalog = []) :
    get_signal true md catalog analyze =
      (Except.ok ⟨"error", some "Could not find any high payout pairs currently open.", none⟩, []) := by
  have hp := get_high_payout_pairs_eq_nil md catalog h
  unfold get_signal
  simp [hp]

/-- C1 witness: a concrete metadata map whose single entry is closed
(hence ineligible), with a nonempty catalog. -/
theorem c1_witness :
    get_signal true [("EUR/USD (OTC)", AssetEntry.data false (ProfitData.dict (some 95)))]
        ["EURUSD_otc"] noAnalyze =
      (Except.ok ⟨"error", some "Could not find any high payout pairs currently open.", none⟩, []) :=
  c1_no_eligible_instruments _ _ _ (Or.inl (by decide))

/-- C2 counterexample: with `ma5 = 2 > ma20 = 1` (trend +40) and
`rsi = 70 > 60` (momentum −40) the running score is exactly 0, and the
price `1` is within 0.2% of `ma20 = 1`; yet the mean-reversion step
contributes −20 (the code's `score > 0` test sends a zero score down the
negative branch), so the step does not contribute nothing as claimed. -/
theorem c2_counterexample :
    trendScore 2 1 + momentumScore 70 = 0 ∧
    |(1 : ℚ) - 1| / 1 < 0.002 ∧
    baselineAdj (trendScore 2 1 + momentumScore 70) 1 1 = -20 ∧
    scoreOf 2 1 70 1 = -20 := by
  refine ⟨?_, ?_, ?_, ?_⟩ <;>
    norm_num [scoreOf, trendScore, momentumScore, baselineAdj]

/-- C2 (amended): when the running score is exactly 0 after the trend
and momentum terms and the price is within 0.2% of the slow moving
average, the mean-reversion step takes the negative branch of
`score += 20 if score > 0 else -20` and subtracts 20, leaving the score
at −20; the final outcome is nevertheless still 'no signal', since
|−20| < 60. -/
theorem c2_zero_score_baseline (ma5 ma20 rsi current_price : ℚ)
    (h0 : trendScore ma5 ma20 + momentumScore rsi = 0)
    (hnear : |current_price - ma20| / ma20 < 0.002) :
    baselineAdj (trendScore ma5 ma20 + momentumScore rsi) current_price ma20 = -20 ∧
    scoreOf ma5 ma20 rsi current_price = -20 ∧
    decisionOf (scoreOf ma5 ma20 rsi current_price) = none := by
  have hadj : baselineAdj (trendScore ma5 ma20 + momentumScore rsi) current_price ma20 = -20 := by
    rw [h0]
    simp [baselineAdj, hnear]
  have hs : scoreOf ma5 ma20 rsi current_price = -20 := by
    unfold scoreOf
    rw [h0]
    simp [baselineAdj, hnear]
  exact ⟨hadj, hs, by rw [hs]; decide⟩

/-- C2 witness: the concrete snapshot of the counterexample discharges
the amended theorem's hypotheses. -/
theorem c2_witness :
    baselineAdj (trendScore 2 1 + momentumScore 70) 1 1 = -20 ∧
    scoreOf 2 1 70 1 = -20 ∧
    decisionOf (scoreOf 2 1 70 1) = none :=
  c2_zero_score_baseline 2 1 70 1
    (by norm_num [trendScore, momentumScore]) (by norm_num)

theorem leadsWith_self (s : List Char) : leadsWith s s = true := by
  induction s with
  | nil => rfl
  | cons c cs ih => simp [leadsWith, ih]

theorem hasSub_append_self (t s : List Char) : hasSub s (t ++ s) = true := by
  induction t with
  | nil =>
    cases s with
    | nil => rfl
    | cons c cs => simp [hasSub, leadsWith_self]
  | cons c cs ih => simp [hasSub, ih]

/-- C3 counterexample: when the connection attempt raises (modelled by
an `Except.error` connect outcome), the shared `bot_client` is left
holding the freshly constructed, unconnected client — the session is
not unset or cleared, contradicting the claim. -/
theorem c3_counterexample :
    login none "a@b.c" "pw" none (Except.error "websocket handshake failed") =
      (some ⟨"a@b.c", "pw", "en", none⟩, Except.error (500, "websocket handshake failed")) ∧
    (some (Client.mk "a@b.c" "pw" "en" none) : Option Client) ≠ none := by
  constructor
  · rfl
  · decide

/-- C3 (amended): when the connector rejects the credentials (`connect`
returns `check = false`), the session is cleared and the connector's
reason string appears inside the surfaced error detail (re-wrapped as a
500 `HTTPException`, because the 401 raised at `main.py` 174 is itself
caught by the `except` at 175).  When the connection attempt raises,
the session is instead left set to the freshly constructed client and
the exception message is surfaced; and when closing the previous client
raises, the previous session is left in place. -/
theorem c3_login_failure_paths :
    (∀ (email password reason : String),
      login none email password none (Except.ok (false, reason)) =
        (none, Except.error (500, strOfHTTPException 401 ("Login failed: " ++ reason))) ∧
      pyIn reason (strOfHTTPException 401 ("Login failed: " ++ reason)) = true) ∧
    (∀ (email password msg : String),
      login none email password none (Except.error msg) =
        (some ⟨email, password, "en", none⟩, Except.error (500, msg))) ∧
    (∀ (old : Client) (email password msg : String) (connectOutcome : Except String (Bool × String)),
      login (some old) email password (some msg) connectOutcome =
        (some old, Except.error (500, msg))) := by
  refine ⟨fun email password reason => ⟨rfl, ?_⟩, fun _ _ _ => rfl, fun _ _ _ _ _ => rfl⟩
  show hasSub reason.data (strOfHTTPException 401 ("Login failed: " ++ reason)).data = true
  have : (strOfHTTPException 401 ("Login failed: " ++ reason)).data =
      ("401: Login failed: ").data ++ reason.data := by
    have h401 : toString (401 : Nat) = "401" := rfl
    simp [strOfHTTPException, String.data_append, h401]
  rw [this]
  exact hasSub_append_self _ _

theorem decisionOf_bounds (score : Int) (d : String) (c : Int)
    (h : decisionOf score = some (d, c)) : 60 ≤ c ∧ c ≤ 98 := by
  unfold decisionOf at h
  split_ifs at h with h1 h2
  · injection h with h'
    obtain ⟨rfl, rfl⟩ := Prod.mk.injEq .. ▸ Prod.mk.inj h'.symm
    omega
  · injection h with h'
    obtain ⟨rfl, rfl⟩ := Prod.mk.injEq .. ▸ Prod.mk.inj h'.symm
    rw [abs_of_nonpos (by omega)]
    omega

/-- C4: whenever the scoring engine produces a signal from an indicator
snapshot, the signal's confidence is an integer in [60, 98]; and scores
of exactly +60 or −60 do produce a signal (the threshold is
inclusive). -/
theorem c4_confidence_bounds :
    (∀ (s : Snapshot) (name : String) (sig : Signal),
      signalFromSnapshot s name = some sig → 60 ≤ sig.confidence ∧ sig.confidence ≤ 98) ∧
    (∀ (s : Snapshot) (name : String),
      s.volatility_ok = true →
      (scoreOf s.ma5 s.ma20 s.rsi s.current_price = 60 ∨
       scoreOf s.ma5 s.ma20 s.rsi s.current_price = -60) →
      (signalFromSnapshot s name).isSome = true) := by
  constructor
  · intro s name sig h
    unfold signalFromSnapshot at h
    split_ifs at h
    rcases hd : decisionOf (scoreOf s.ma5 s.ma20 s.rsi s.current_price) with _ | dc
    · rw [hd] at h
      simp at h
    · rw [hd] at h
      simp only [Option.some.injEq] at h
      have hb := decisionOf_bounds _ dc.1 dc.2 (by rw [hd])
      rw [← h]
      exact hb
  · intro s name hvol hs
    unfold signalFromSnapshot
    rw [hvol]
    rcases hs with hs | hs <;> rw [hs] <;> simp [decisionOf]

def snapA : Snapshot := ⟨100, 99, 101, 1, 2, 30, true⟩

def sigA : Signal :=
  ⟨"EUR/USD (OTC)", "CALL 🟢", 80, "1 Minute", 100, 99, 101,
   [LogicEntry.trendUp, LogicEntry.rsiOversold 30]⟩

theorem sigA_eq : signalFromSnapshot snapA "EUR/USD (OTC)" = some sigA := by
  norm_num [signalFromSnapshot, snapA, sigA, decisionOf, scoreOf, trendScore,
    momentumScore, baselineAdj, logicOf, round5]

def snapB : Snapshot := ⟨1, 1, 1, 1, 2, 50, true⟩

/-- C4 witness: a concrete snapshot yielding confidence 80 for the first
part, and a concrete snapshot whose score is exactly +60 for the second. -/
theorem c4_witness :
    (60 ≤ sigA.confidence ∧ sigA.confidence ≤ 98) ∧
    (signalFromSnapshot snapB "EUR/USD (OTC)").isSome = true :=
  ⟨c4_confidence_bounds.1 snapA "EUR/USD (OTC)" sigA sigA_eq,
   c4_confidence_bounds.2 snapB "EUR/USD (OTC)" rfl
     (Or.inl (by norm_num [snapB, scoreOf, trendScore, momentumScore, baselineAdj]))⟩

/-- C5: for every close-price sequence of length ≥ 30 (constant
sequences included), the RSI computation's divisor `avg_loss` is
strictly positive — when a side of the 14-delta window is empty the
epsilon 0.0001 is substituted as that average — so `rs = avg_gain /
avg_loss` never divides by zero. -/
theorem c5_rsi_no_div_by_zero (closes : List ℚ) (_hlen : 30 ≤ closes.length) :
    0 < avg_loss closes ∧ avg_loss closes ≠ 0 ∧
    (rsiGains closes = [] → avg_gain closes = 0.0001) ∧
    (rsiLosses closes = [] → avg_loss closes = 0.0001) := by
  have hpos : 0 < avg_loss closes := by
    unfold avg_loss
    split_ifs with h
    · have hmem : ∀ x ∈ rsiLosses closes, 0 < x := by
        intro x hx
        unfold rsiLosses at hx
        obtain ⟨d, hd, rfl⟩ := List.mem_map.mp hx
        have := List.of_mem_filter hd
        have hdneg : d < 0 := by simpa using this
        exact abs_pos.mpr (ne_of_lt hdneg)
      have hsum : 0 < (rsiLosses closes).sum := List.sum_pos _ hmem h
      positivity
    · norm_num
  refine ⟨hpos, ne_of_gt hpos, ?_, ?_⟩
  · intro h
    simp [avg_gain, h]
  · intro h
    simp [avg_loss, h]

/-- C5 witness: a constant close sequence of length 30; all deltas are
zero, the losses side is empty, and the epsilon keeps the divisor
positive. -/
theorem c5_witness :
    0 < avg_loss (List.replicate 30 (1 : ℚ)) ∧
    avg_loss (List.replicate 30 (1 : ℚ)) ≠ 0 ∧
    (rsiGains (List.replicate 30 (1 : ℚ)) = [] → avg_gain (List.replicate 30 (1 : ℚ)) = 0.0001) ∧
    (rsiLosses (List.replicate 30 (1 : ℚ)) = [] → avg_loss (List.replicate 30 (1 : ℚ)) = 0.0001) :=
  c5_rsi_no_div_by_zero _ (by simp)

/-- C7: the scoring engine is a pure deterministic function of its
indicator snapshot and display name — two evaluations on equal inputs
yield identical signals (direction, confidence and rationale included). -/
theorem c7_scoring_deterministic (s₁ s₂ : Snapshot) (n₁ n₂ : String)
    (hs : s₁ = s₂) (hn : n₁ = n₂) :
    signalFromSnapshot s₁ n₁ = signalFromSnapshot s₂ n₂ := by
  rw [hs, hn]

/-- C7 witness: the two evaluations at a concrete snapshot agree. -/
theorem c7_witness :
    signalFromSnapshot snapA "EUR/USD (OTC)" = signalFromSnapshot snapA "EUR/USD (OTC)" :=
  c7_scoring_deterministic snapA snapA "EUR/USD (OTC)" "EUR/USD (OTC)" rfl rfl

/-- C8: the resolver's normalization maps the display name
"EUR/USD (OTC)" and the catalog code "EURUSD_otc" both to "EURUSD", the
two match under the substring-containment rule, and the candidate is
retained with that catalog code. -/
theorem c8_normalization_match :
    cleanDisplay "EUR/USD (OTC)" = "EURUSD" ∧
    cleanCode "EURUSD_otc" = "EURUSD" ∧
    pyIn (cleanDisplay "EUR/USD (OTC)") (cleanCode "EURUSD_otc") = true ∧
    pairsWithCodes [⟨"EUR/USD (OTC)", 92⟩] ["EURUSD_otc"] =
      [⟨"EURUSD_otc", 92, "EUR/USD (OTC)"⟩] := by
  refine ⟨by decide, by decide, by decide, by decide⟩

theorem selectLoop_early (analyze : Candidate → Option Signal) (c : Candidate)
    (post : List Candidate) (sig : Signal) (pre : List Candidate) :
    ∀ (best : Option Signal) (highest : Int), highest < 90 →
      (∀ p ∈ pre, ∀ s, analyze p = some s → s.confidence < 90) →
      analyze c = some sig → 90 ≤ sig.confidence →
      selectLoop analyze (pre ++ c :: post) best highest = (some sig, pre ++ [c]) := by
  induction pre with
  | nil =>
    intro best highest hh _ hc hsig
    have h1 : sig.confidence > highest := by omega
    simp [selectLoop, hc, h1, hsig]
  | cons p pre ih =>
    intro best highest hh hpre hc hsig
    have hp := hpre p (by simp)
    have hrest : ∀ q ∈ pre, ∀ s, analyze q = some s → s.confidence < 90 :=
      fun q hq => hpre q (by simp [hq])
    cases hap : analyze p with
    | none =>
      simp only [List.cons_append, selectLoop, hap, List.append_eq]
      rw [ih best highest hh hrest hc hsig]
    | some s =>
      have hs90 := hp s hap
      by_cases hgt : s.confidence > highest
      · simp only [List.cons_append, selectLoop, hap, if_pos hgt, List.append_eq]
        rw [if_neg (by omega)]
        rw [ih (some s) s.confidence (by omega) hrest hc hsig]
      · simp only [List.cons_append, selectLoop, hap, if_neg hgt, List.append_eq]
        rw [if_neg (by omega)]
        rw [ih best highest hh hrest hc hsig]

/-- C6: once a candidate yields a signal of confidence ≥ 90 (no earlier
candidate having done so), the selection loop stops immediately and
returns that signal; the list of candidates for which a candle fetch
was performed ends at that candidate, so no later-ranked candidate is
fetched. -/
theorem c6_early_exit (analyze : Candidate → Option Signal)
    (pre : List Candidate) (c : Candidate) (post : List Candidate) (sig : Signal)
    (hpre : ∀ p ∈ pre, ∀ s, analyze p = some s → s.confidence < 90)
    (hc : analyze c = some sig) (hsig : 90 ≤ sig.confidence) :
    selectLoop analyze (pre ++ c :: post) none 0 = (some sig, pre ++ [c]) :=
  selectLoop_early analyze c post sig pre none 0 (by omega) hpre hc hsig

def cand1 : Candidate := ⟨"EURUSD_otc", 92, "EUR/USD (OTC)"⟩

def cand2 : Candidate := ⟨"GBPUSD_otc", 91, "GBP/USD (OTC)"⟩

def sig98 : Signal :=
  ⟨"EUR/USD (OTC)", "CALL 🟢", 98, "1 Minute", 100, 99, 101,
   [LogicEntry.trendUp, LogicEntry.rsiOversold 30, LogicEntry.testingBaseline]⟩

def analyze98 : Candidate → Option Signal := fun _ => some sig98

/-- C6 witness: the first candidate yields confidence 98, so the loop
returns it having fetched only that candidate, never the second. -/
theorem c6_witness :
    selectLoop analyze98 [cand1, cand2] none 0 = (some sig98, [cand1]) :=
  c6_early_exit analyze98 [] cand1 [cand2] sig98 (by simp) rfl (by decide)

/-- C9: a per-candidate candle fetch that raises is caught inside
`analyze_pair` and yields no signal, and the selection loop treats a
no-signal candidate by continuing with the remaining candidates from the
same accumulator state — so a single failing instrument never aborts the
ranking pass. -/
theorem c9_failing_candidate_skipped :
    (∀ (err name : String), analyze_pair (Except.error err) name = none) ∧
    (∀ (analyze : Candidate → Option Signal) (best : Option Signal) (highest : Int)
        (bad : Candidate) (rest : List Candidate), analyze bad = none →
      selectLoop analyze (bad :: rest) best highest =
        ((selectLoop analyze rest best highest).1,
         bad :: (selectLoop analyze rest best highest).2)) := by
  refine ⟨fun _ _ => rfl, fun analyze best highest bad rest h => ?_⟩
  simp [selectLoop, h]

/-- C9 witness: a concrete raising fetch yields no signal, and a
concrete loop state steps over a failing candidate into the rest of the
list. -/
theorem c9_witness :
    analyze_pair (Except.error "connection reset") "EUR/USD (OTC)" = none ∧
    selectLoop noAnalyze [cand1, cand2] none 0 =
      ((selectLoop noAnalyze [cand2] none 0).1,
       cand1 :: (selectLoop noAnalyze [cand2] none 0).2) :=
  ⟨c9_failing_candidate_skipped.1 "connection reset" "EUR/USD (OTC)",
   c9_failing_candidate_skipped.2 noAnalyze none 0 cand1 [cand2] (by rfl)⟩

theorem scoreOf_enum (ma5 ma20 rsi p : ℚ) :
    scoreOf ma5 ma20 rsi p = 100 ∨ scoreOf ma5 ma20 rsi p = 80 ∨
    scoreOf ma5 ma20 rsi p = 60 ∨ scoreOf ma5 ma20 rsi p = 40 ∨
    scoreOf ma5 ma20 rsi p = 0 ∨ scoreOf ma5 ma20 rsi p = -20 ∨
    scoreOf ma5 ma20 rsi p = -40 ∨ scoreOf ma5 ma20 rsi p = -60 ∨
    scoreOf ma5 ma20 rsi p = -80 ∨ scoreOf ma5 ma20 rsi p = -100 := by
  unfold scoreOf trendScore momentumScore baselineAdj
  split_ifs <;> norm_num

/-- C10 (implicit): whenever a signal is produced, its confidence is
exactly one of 60, 80 or 98 — the additive weights and the cap at 98
admit no other attainable value. -/
theorem c10_confidence_enum (s : Snapshot) (name : String) (sig : Signal)
    (h : signalFromSnapshot s name = some sig) :
    sig.confidence = 60 ∨ sig.confidence = 80 ∨ sig.confidence = 98 := by
  unfold signalFromSnapshot at h
  split_ifs at h
  have henum := scoreOf_enum s.ma5 s.ma20 s.rsi s.current_price
  rcases hd : decisionOf (scoreOf s.ma5 s.ma20 s.rsi s.current_price) with _ | dc
  · rw [hd] at h
    simp at h
  · rw [hd] at h
    simp only [Option.some.injEq] at h
    subst h
    simp only []
    unfold decisionOf at hd
    split_ifs at hd with h1 h2
    · have hdc := Option.some.inj hd
      have hc2 : dc.2 = min (scoreOf s.ma5 s.ma20 s.rsi s.current_price) 98 := by
        rw [← hdc]
      show dc.2 = 60 ∨ dc.2 = 80 ∨ dc.2 = 98
      rw [hc2]
      omega
    · have hdc := Option.some.inj hd
      have hc2 : dc.2 = min |scoreOf s.ma5 s.ma20 s.rsi s.current_price| 98 := by
        rw [← hdc]
      rw [abs_of_nonpos (by omega)] at hc2
      show dc.2 = 60 ∨ dc.2 = 80 ∨ dc.2 = 98
      rw [hc2]
      omega

/-- C10 witness: the concrete snapshot of `snapA` yields a signal of
confidence 80, one of the three attainable values. -/
theorem c10_witness :
    sigA.confidence = 60 ∨ sigA.confidence = 80 ∨ sigA.confidence = 98 :=
  c10_confidence_enum snapA "EUR/USD (OTC)" sigA sigA_eq
